import Mathlib

/-!
Shallow embedding of the snapcraft-exporter (`src/main.go`) core:
the snapcraft metric data model, the `SnapcraftDate` JSON marshalling,
the metric-name → descriptor switch, the transport step
(`getSnapcraftMetrics`) and the `Collect` loops.

Conventions of the embedding:
* Go byte strings handled by the date code are modelled as `List Char`.
* A Go `panic` is modelled as `Option.none`: an unrecovered panic inside
  the collector aborts the whole scrape, so a scrape that panics serves
  no samples at all.
* Go `[]int` metric values are modelled as `List Int`; the
  `float64(item.Values[i])` conversion in `MustNewConstMetric` is exact
  on the int range involved, so samples carry the `Int` directly.
* The HTTP transport and the JSON decoding of the response body are
  abstracted as function parameters, exactly at the boundary where
  `main.go` calls `client.Do` and `json.Unmarshal`.
-/

namespace SnapcraftExporter

/-- From `type SnapcraftDate time.Time` in src/main.go. The only values the
program ever stores in a `SnapcraftDate` are midnight-UTC calendar dates
(produced by `UnmarshalJSON` via `time.Parse("2006-01-02", s)`), so the
embedding keeps just the calendar date. -/
structure SnapcraftDate where
  year : Nat
  month : Nat
  day : Nat
deriving DecidableEq, Repr

/-- From `type SnapcraftMetricsItem struct` in src/main.go:
`Name string`, `Values []int`, `Released bool`. -/
structure SnapcraftMetricsItem where
  name : String
  values : List Int
  released : Bool
deriving DecidableEq, Repr

/-- From `type SnapcraftMetric struct` in src/main.go:
`Buckets []SnapcraftDate`, `MetricName string`, `Series []SnapcraftMetricsItem`,
`SnapID string`, `Status string`. -/
structure SnapcraftMetric where
  buckets : List SnapcraftDate
  metricName : String
  series : List SnapcraftMetricsItem
  snapID : String
  status : String
deriving DecidableEq, Repr

/-- From `type SnapcraftMetrics struct { Metrics []SnapcraftMetric }`. -/
structure SnapcraftMetrics where
  metrics : List SnapcraftMetric
deriving DecidableEq, Repr

/-- From `var AllSnapcraftMetricNames = []string{...}` in src/main.go. -/
def AllSnapcraftMetricNames : List String :=
  ["daily_device_change", "weekly_device_change", "installed_base_by_channel",
   "installed_base_by_country", "installed_base_by_operating_system",
   "installed_base_by_version", "weekly_installed_base_by_channel",
   "weekly_installed_base_by_country", "weekly_installed_base_by_operating_system",
   "weekly_installed_base_by_version"]

/-! ## Date parsing and serialization (SnapcraftDate.UnmarshalJSON / MarshalJSON) -/

/-- ASCII decimal digit test, as in Go `time` package parsing. -/
def isDigitChar (c : Char) : Bool := 48 ≤ c.toNat && c.toNat ≤ 57

/-- Numeric value of an ASCII digit character. -/
def digitVal (c : Char) : Nat := c.toNat - 48

/-- ASCII digit character for a value `0..9`. -/
def digitChar (n : Nat) : Char := Char.ofNat (48 + n)

/-- Go `isLeap` from the `time` package: `year%4 == 0 && (year%100 != 0 || year%400 == 0)`. -/
def isLeap (y : Nat) : Bool := y % 4 == 0 && (y % 100 != 0 || y % 400 == 0)

/-- Go `daysIn(m, year)` from the `time` package: days in month `m` of year `y`. -/
def daysInMonth (y m : Nat) : Nat :=
  if m = 2 then (if isLeap y then 29 else 28)
  else if m = 4 ∨ m = 6 ∨ m = 9 ∨ m = 11 then 30
  else 31

/-- The calendar dates representable in the `2006-01-02` layout: a four-digit
year and a month/day in range (Go validates the month against `1..12` and the
day against `daysIn`). -/
def validDate (d : SnapcraftDate) : Prop :=
  d.year ≤ 9999 ∧ 1 ≤ d.month ∧ d.month ≤ 12 ∧ 1 ≤ d.day ∧
    d.day ≤ daysInMonth d.year d.month

instance (d : SnapcraftDate) : Decidable (validDate d) := by
  unfold validDate; infer_instance

/-- Embedding of Go `time.Parse("2006-01-02", s)` restricted to its date
result: the input must be exactly four digits, a dash, two digits, a dash and
two digits (any trailing text is an error), the month must be `01..12` and the
day must be in range for that month, else parsing fails. -/
def parseDateChars : List Char → Option SnapcraftDate
  | [y1, y2, y3, y4, s1, m1, m2, s2, d1, d2] =>
    if isDigitChar y1 = true ∧ isDigitChar y2 = true ∧ isDigitChar y3 = true ∧
       isDigitChar y4 = true ∧ s1 = '-' ∧ isDigitChar m1 = true ∧
       isDigitChar m2 = true ∧ s2 = '-' ∧ isDigitChar d1 = true ∧
       isDigitChar d2 = true then
      if 1 ≤ 10 * digitVal m1 + digitVal m2 ∧ 10 * digitVal m1 + digitVal m2 ≤ 12 ∧
         1 ≤ 10 * digitVal d1 + digitVal d2 ∧
         10 * digitVal d1 + digitVal d2 ≤
           daysInMonth (1000 * digitVal y1 + 100 * digitVal y2 + 10 * digitVal y3 + digitVal y4)
             (10 * digitVal m1 + digitVal m2) then
        some ⟨1000 * digitVal y1 + 100 * digitVal y2 + 10 * digitVal y3 + digitVal y4,
              10 * digitVal m1 + digitVal m2, 10 * digitVal d1 + digitVal d2⟩
      else none
    else none
  | _ => none

/-- Canonical `YYYY` / zero-padded rendering of a four-digit number. -/
def pad4 (n : Nat) : List Char :=
  [digitChar (n / 1000 % 10), digitChar (n / 100 % 10),
   digitChar (n / 10 % 10), digitChar (n % 10)]

/-- Canonical `MM` / `DD` zero-padded rendering of a two-digit number. -/
def pad2 (n : Nat) : List Char :=
  [digitChar (n / 10 % 10), digitChar (n % 10)]

/-- The canonical `YYYY-MM-DD` rendering of a calendar date. -/
def renderDateChars (d : SnapcraftDate) : List Char :=
  pad4 d.year ++ '-' :: pad2 d.month ++ '-' :: pad2 d.day

/-- Embedding of `strings.Trim(string(b), "\x22")` from
`SnapcraftDate.UnmarshalJSON`: remove all leading and trailing double-quote
characters. -/
def trimQuotes (cs : List Char) : List Char :=
  ((cs.dropWhile (· == '"')).reverse.dropWhile (· == '"')).reverse

/-- From `func (date *SnapcraftDate) UnmarshalJSON(b []byte) error` in
src/main.go: trim double quotes, then `time.Parse("2006-01-02", s)`;
`none` is the error return. -/
def unmarshalSnapcraftDate (b : List Char) : Option SnapcraftDate :=
  parseDateChars (trimQuotes b)

/-- The `T00:00:00Z` clock/zone part that `json.Marshal` appends when
serializing a midnight-UTC `time.Time` in RFC 3339 form. -/
def timeSuffix : List Char := ['T', '0', '0', ':', '0', '0', ':', '0', '0', 'Z']

/-- From `func (date SnapcraftDate) MarshalJSON() ([]byte, error)` in
src/main.go: `json.Marshal(time.Time(date))` renders the wrapped `time.Time`
as a quoted RFC 3339 string; for the midnight-UTC values a `SnapcraftDate`
holds this is `"YYYY-MM-DDT00:00:00Z"` including the double quotes. -/
def marshalSnapcraftDate (d : SnapcraftDate) : List Char :=
  '"' :: (renderDateChars d ++ timeSuffix ++ ['"'])

/-! ## Metric descriptors (newSnapcraftCollector in src/main.go) -/

/-- Embedding of `*prometheus.Desc` as built by `prometheus.NewDesc(fqName,
help, variableLabels, nil)`: the constant-label argument is always `nil` in
src/main.go and is omitted. -/
structure PromDesc where
  fqName : String
  help : String
  variableLabels : List String
deriving DecidableEq, Repr

/-- `deviceChangeDaily` field of the collector, from `newSnapcraftCollector`. -/
def deviceChangeDaily : PromDesc :=
  ⟨"snapcraft_device_change_daily",
   "Exported from https://snapcraft.io/docs/snapcraft-metrics. daily_device_change: contains the 3 series representing the number of new, continued and lost devices with the given snap installed compared to the previous day.",
   ["snap_id", "change"]⟩

/-- `deviceChangeWeekly` field of the collector. -/
def deviceChangeWeekly : PromDesc :=
  ⟨"snapcraft_device_change_weekly",
   "Exported from https://snapcraft.io/docs/snapcraft-metrics. weekly_device_change: similar to the ‘daily_device_change’ metric but operates on a 7 day window. i.e. new contains the number of devices that were seen during the last 7 days but not in the previous 7 day and so on for continued and lost.",
   ["snap_id", "change"]⟩

/-- `installBaseByChannelDaily` field of the collector. -/
def installBaseByChannelDaily : PromDesc :=
  ⟨"snapcraft_install_base_by_channel_daily",
   "Exported from https://snapcraft.io/docs/snapcraft-metrics. installed_base_by_channel: contains one series per channel representing the number of devices with the given snap installed, channels with no data across the entire interval are omitted.",
   ["snap_id", "channel"]⟩

/-- `installBaseByCountryDaily` field of the collector. -/
def installBaseByCountryDaily : PromDesc :=
  ⟨"snapcraft_install_base_by_country_daily",
   "Exported from https://snapcraft.io/docs/snapcraft-metrics. installed_base_by_country: contains one series per country representing the number of devices with the given snap installed.",
   ["snap_id", "country"]⟩

/-- `installBaseBySystemDaily` field of the collector. -/
def installBaseBySystemDaily : PromDesc :=
  ⟨"snapcraft_install_base_by_system_daily",
   "Exported from https://snapcraft.io/docs/snapcraft-metrics. installed_base_by_operating_system: contains one series per operating_system representing the number of devices with the given snap installed.",
   ["snap_id", "system"]⟩

/-- `installBaseByVersionDaily` field of the collector. -/
def installBaseByVersionDaily : PromDesc :=
  ⟨"snapcraft_install_base_by_version_daily",
   "Exported from https://snapcraft.io/docs/snapcraft-metrics. installed_base_by_version: contains one series per version representing the number of devices with the given snap installed.",
   ["snap_id", "version"]⟩

/-- `installBaseByChannelWeekly` field of the collector. -/
def installBaseByChannelWeekly : PromDesc :=
  ⟨"snapcraft_install_base_by_channel_weekly",
   "Exported from https://snapcraft.io/docs/snapcraft-metrics. weekly_installed_base_by_channel: similar to the installed_base_by_channel metric but operates in a 7 day window.",
   ["snap_id", "channel"]⟩

/-- `installBaseByCountryWeekly` field of the collector. -/
def installBaseByCountryWeekly : PromDesc :=
  ⟨"snapcraft_install_base_by_country_weekly",
   "Exported from https://snapcraft.io/docs/snapcraft-metrics. weekly_installed_base_by_country: similar to the installed_base_by_country metric but operates in a 7 day window.",
   ["snap_id", "country"]⟩

/-- `installBaseBySystemWeekly` field of the collector. -/
def installBaseBySystemWeekly : PromDesc :=
  ⟨"snapcraft_install_base_by_system_weekly",
   "Exported from https://snapcraft.io/docs/snapcraft-metrics. weekly_installed_base_by_operating_system: similar to the installed_base_by_operating_system metric but operates in a 7 day window.",
   ["snap_id", "system"]⟩

/-- `installBaseByVersionWeekly` field of the collector. -/
def installBaseByVersionWeekly : PromDesc :=
  ⟨"snapcraft_install_base_by_version_weekly",
   "Exported from https://snapcraft.io/docs/snapcraft-metrics. weekly_installed_base_by_version: similar to the installed_base_by_version metric but operates in a 7 day window.",
   ["snap_id", "version"]⟩

/-- From `func (collector *SnapcraftCollector) snapcraftToPrometheus(metricName
string) *prometheus.Desc` in src/main.go: a switch over the ten metric-name
constants; the `default` branch is `panic("trying to export an unsupported
metric")`, modelled as `none`. -/
def snapcraftToPrometheus (metricName : String) : Option PromDesc :=
  if metricName = "daily_device_change" then some deviceChangeDaily
  else if metricName = "weekly_device_change" then some deviceChangeWeekly
  else if metricName = "installed_base_by_channel" then some installBaseByChannelDaily
  else if metricName = "installed_base_by_country" then some installBaseByCountryDaily
  else if metricName = "installed_base_by_operating_system" then some installBaseBySystemDaily
  else if metricName = "installed_base_by_version" then some installBaseByVersionDaily
  else if metricName = "weekly_installed_base_by_channel" then some installBaseByChannelWeekly
  else if metricName = "weekly_installed_base_by_country" then some installBaseByCountryWeekly
  else if metricName = "weekly_installed_base_by_operating_system" then some installBaseBySystemWeekly
  else if metricName = "weekly_installed_base_by_version" then some installBaseByVersionWeekly
  else none

/-! ## The transport step (getSnapcraftMetrics in src/main.go) -/

/-- From `type SnapcraftMetricFilter struct` in src/main.go (the `Start`/`End`
fields are never set by the program and are omitted). -/
structure SnapcraftMetricFilter where
  snapID : String
  metricName : String
deriving DecidableEq, Repr

/-- The POST body built by the two nested loops at the top of
`getSnapcraftMetrics`: one filter per (snap id, metric name) pair. -/
def buildFilters (snapIDs snapMetricNames : List String) : List SnapcraftMetricFilter :=
  snapIDs.flatMap fun id => snapMetricNames.map fun name => ⟨id, name⟩

/-- The observable outcome of `client.Do` + `ioutil.ReadAll`: an HTTP status
code and a response body. `none` at the call site models a request/read error. -/
structure HttpResult where
  status : Nat
  body : String
deriving DecidableEq, Repr

/-- From `func getSnapcraftMetrics(snapIDs []string, snapMetricNames []string)
SnapcraftMetrics` in src/main.go.  `macaroon` is the `SNAP_STORE_MACAROON`
environment value (Go `os.Getenv` yields `""` when unset); `transport` stands
for the single POST of the batched filter body to the dashboard API; `unmarshal`
stands for `json.Unmarshal` on the response body, returning the (possibly
partially) populated struct together with a flag telling whether decoding
failed.  All four `panic(...)` sites are modelled as `none`.  Note that the
error result of `json.Unmarshal` is discarded by the source: only the struct is
used, whatever the flag says. -/
def getSnapcraftMetrics (snapIDs : List String) (macaroon : String)
    (transport : List SnapcraftMetricFilter → Option HttpResult)
    (unmarshal : String → SnapcraftMetrics × Bool) : Option SnapcraftMetrics :=
  if macaroon = "" then none
  else
    match transport (buildFilters snapIDs AllSnapcraftMetricNames) with
    | none => none
    | some res =>
      if res.status ≠ 200 then none
      else some (unmarshal res.body).1

/-! ## The collect loops (SnapcraftCollector.Collect in src/main.go) -/

/-- One emitted sample: the result of `prometheus.MustNewConstMetric(desc,
prometheus.GaugeValue, float64(item.Values[i]), metric.SnapID, item.Name)`
wrapped by `prometheus.NewMetricWithTimestamp(time.Time(date), m)`.  The
`float64` conversion is exact on the integer values involved, so the sample
keeps the `Int`. -/
structure Sample where
  desc : PromDesc
  labelValues : List String
  value : Int
  timestamp : SnapcraftDate
deriving DecidableEq, Repr

/-- The inner `for i, date := range metric.Buckets` loop of `Collect`: `i` is
the running bucket index, and `item.Values[i]` is Go slice indexing, which
panics (here: `none`) when `i` is out of range.  The descriptor lookup
`collector.snapcraftToPrometheus(metric.MetricName)` happens inside the loop
body, so it is only reached when the loop body runs at least once. -/
def bucketLoop (m : SnapcraftMetric) (item : SnapcraftMetricsItem) :
    Nat → List SnapcraftDate → Option (List Sample)
  | _, [] => some []
  | i, date :: rest => do
    let desc ← snapcraftToPrometheus m.metricName
    let v ← item.values[i]?
    let tail ← bucketLoop m item (i + 1) rest
    pure ({ desc := desc, labelValues := [m.snapID, item.name], value := v,
            timestamp := date } :: tail)

/-- The `for _, item := range metric.Series` loop of `Collect`. -/
def seriesLoop (m : SnapcraftMetric) : List SnapcraftMetricsItem → Option (List Sample)
  | [] => some []
  | item :: rest => do
    let s ← bucketLoop m item 0 m.buckets
    let t ← seriesLoop m rest
    pure (s ++ t)

/-- The samples `Collect` produces for one decoded `SnapcraftMetric`
(`none` = the loop body panicked and the scrape died). -/
def collectMetricSamples (m : SnapcraftMetric) : Option (List Sample) :=
  seriesLoop m m.series

/-- The `for _, metric := range snapcraftMetrics.Metrics` loop of `Collect`. -/
def metricsLoop : List SnapcraftMetric → Option (List Sample)
  | [] => some []
  | m :: rest => do
    let s ← collectMetricSamples m
    let t ← metricsLoop rest
    pure (s ++ t)

/-- From `func (collector *SnapcraftCollector) Collect(ch chan<-
prometheus.Metric)` in src/main.go: fetch via `getSnapcraftMetrics`, then run
the three nested loops.  The result is the full sample stream of one scrape;
`none` means some step panicked, in which case the scrape serves nothing. -/
def Collect (snapIDs : List String) (macaroon : String)
    (transport : List SnapcraftMetricFilter → Option HttpResult)
    (unmarshal : String → SnapcraftMetrics × Bool) : Option (List Sample) := do
  let sm ← getSnapcraftMetrics snapIDs macaroon transport unmarshal
  metricsLoop sm.metrics

/-- From `func main()` in src/main.go: the process calls `snapcraftExporter`
(which registers the collector and serves HTTP) if and only if the `SNAP_IDS`
environment value is nonempty.  `SNAP_STORE_MACAROON` is not consulted here at
all — it is only read inside `getSnapcraftMetrics` during a scrape — so it is
an explicitly unused parameter. -/
def mainStartsServing (snapIDString macaroon : String) : Bool :=
  snapIDString != ""

/-! ## Specification-side sample list

Written from the words of spec §4.3 ("for each `(seriesItem, bucketIndex)` pair
where `len(values) == len(buckets)` holds, construct a Sample with label values
`{dimensionLabel: seriesItem.name, [entityLabel: entity]}`, numeric value
`seriesItem.values[bucketIndex]`, and timestamp `buckets[bucketIndex]`"), for
comparison with the loops embedded from the source. -/

/-- One Sample per `(seriesItem, bucketIndex)` pair, with the series value and
the bucket timestamp aligned by index; label values are the entity id and the
series name, matching the descriptor label names `[snap_id, dimensionLabel]`. -/
def specSamples (desc : PromDesc) (m : SnapcraftMetric) : List Sample :=
  m.series.flatMap fun item =>
    (m.buckets.zip item.values).map fun p =>
      { desc := desc, labelValues := [m.snapID, item.name], value := p.2, timestamp := p.1 }

/-! ## Concrete example inputs -/

/-- The end-to-end example of spec §8: entity `foo`, metric
`installed_base_by_channel`, buckets 2024-01-01 / 2024-01-02, one series
`stable` with values `[10, 12]`. -/
def exFoo : SnapcraftMetric :=
  { buckets := [⟨2024, 1, 1⟩, ⟨2024, 1, 2⟩], metricName := "installed_base_by_channel",
    series := [⟨"stable", [10, 12], false⟩], snapID := "foo", status := "" }

/-- A decoded response with two buckets in which series `a` is well-formed and
series `b` has fewer values than buckets. -/
def exMismatch : SnapcraftMetric :=
  { buckets := [⟨2024, 1, 1⟩, ⟨2024, 1, 2⟩], metricName := "installed_base_by_channel",
    series := [⟨"a", [10, 12], false⟩, ⟨"b", [7], false⟩], snapID := "foo", status := "" }

/-- `exMismatch` without the short series `b`. -/
def exMismatchOnlyA : SnapcraftMetric :=
  { buckets := [⟨2024, 1, 1⟩, ⟨2024, 1, 2⟩], metricName := "installed_base_by_channel",
    series := [⟨"a", [10, 12], false⟩], snapID := "foo", status := "" }

/-- A decoded response with two buckets in which series `b` has more values
than buckets. -/
def exLonger : SnapcraftMetric :=
  { buckets := [⟨2024, 1, 1⟩, ⟨2024, 1, 2⟩], metricName := "installed_base_by_channel",
    series := [⟨"b", [7, 8, 9], false⟩], snapID := "foo", status := "" }

/-- A well-formed response whose buckets are the three consecutive dates
`D-2, D-1, D` with `D = 2024-01-03`. -/
def exThreeBuckets : SnapcraftMetric :=
  { buckets := [⟨2024, 1, 1⟩, ⟨2024, 1, 2⟩, ⟨2024, 1, 3⟩],
    metricName := "installed_base_by_channel",
    series := [⟨"stable", [1, 2, 3], false⟩], snapID := "foo", status := "" }

/-- A decoded response carrying a metric name that is not one of the ten
constants, with a nonempty series and bucket list. -/
def exBogus : SnapcraftMetric :=
  { buckets := [⟨2024, 1, 1⟩], metricName := "bogus",
    series := [⟨"s", [1], false⟩], snapID := "foo", status := "" }

/-- The raw bytes of the JSON string literal `"2024-01-02"`. -/
def exDateChars : List Char :=
  ['"', '2', '0', '2', '4', '-', '0', '1', '-', '0', '2', '"']

/-! ## Digit character lemmas -/

theorem digitChar_toNat {n : Nat} (h : n ≤ 9) : (digitChar n).toNat = 48 + n := by
  interval_cases n <;> decide

theorem isDigitChar_digitChar {n : Nat} (h : n ≤ 9) : isDigitChar (digitChar n) = true := by
  interval_cases n <;> decide

theorem digitVal_digitChar {n : Nat} (h : n ≤ 9) : digitVal (digitChar n) = n := by
  unfold digitVal
  rw [digitChar_toNat h]
  omega

theorem isDigitChar_bounds {c : Char} (h : isDigitChar c = true) :
    48 ≤ c.toNat ∧ c.toNat ≤ 57 := by
  unfold isDigitChar at h
  simp only [Bool.and_eq_true, decide_eq_true_eq] at h
  exact h

theorem digitVal_le {c : Char} (h : isDigitChar c = true) : digitVal c ≤ 9 := by
  have := isDigitChar_bounds h
  unfold digitVal
  omega

theorem digitChar_digitVal {c : Char} (h : isDigitChar c = true) :
    digitChar (digitVal c) = c := by
  have hb := isDigitChar_bounds h
  unfold digitChar digitVal
  rw [show 48 + (c.toNat - 48) = c.toNat by omega]
  exact Char.ofNat_toNat c

theorem digitChar_ne_quote {n : Nat} (h : n ≤ 9) : (digitChar n == '"') = false := by
  interval_cases n <;> decide

/-! ## Soundness and completeness of the date parser -/

theorem parseDateChars_sound {cs : List Char} {dt : SnapcraftDate}
    (h : parseDateChars cs = some dt) :
    validDate dt ∧ renderDateChars dt = cs := by
  rw [parseDateChars.eq_def] at h
  split at h
  case h_2 => exact absurd h (by simp)
  case h_1 y1 y2 y3 y4 s1 m1 m2 s2 d1 d2 =>
    split at h
    case isFalse => exact absurd h (by simp)
    case isTrue hC =>
      split at h
      case isFalse => exact absurd h (by simp)
      case isTrue hR =>
        obtain ⟨hy1, hy2, hy3, hy4, hs1, hm1, hm2, hs2, hd1, hd2⟩ := hC
        injection h with h
        subst h
        subst hs1; subst hs2
        have by1 := digitVal_le hy1
        have by2 := digitVal_le hy2
        have by3 := digitVal_le hy3
        have by4 := digitVal_le hy4
        have bm1 := digitVal_le hm1
        have bm2 := digitVal_le hm2
        have bd1 := digitVal_le hd1
        have bd2 := digitVal_le hd2
        refine ⟨?_, ?_⟩
        · dsimp only [validDate]
          exact ⟨by omega, hR.1, hR.2.1, hR.2.2.1, hR.2.2.2⟩
        simp only [renderDateChars, pad4, pad2, List.cons_append, List.nil_append]
        have e1 : (1000 * digitVal y1 + 100 * digitVal y2 + 10 * digitVal y3 + digitVal y4) /
            1000 % 10 = digitVal y1 := by omega
        have e2 : (1000 * digitVal y1 + 100 * digitVal y2 + 10 * digitVal y3 + digitVal y4) /
            100 % 10 = digitVal y2 := by omega
        have e3 : (1000 * digitVal y1 + 100 * digitVal y2 + 10 * digitVal y3 + digitVal y4) /
            10 % 10 = digitVal y3 := by omega
        have e4 : (1000 * digitVal y1 + 100 * digitVal y2 + 10 * digitVal y3 + digitVal y4) %
            10 = digitVal y4 := by omega
        have e5 : (10 * digitVal m1 + digitVal m2) / 10 % 10 = digitVal m1 := by omega
        have e6 : (10 * digitVal m1 + digitVal m2) % 10 = digitVal m2 := by omega
        have e7 : (10 * digitVal d1 + digitVal d2) / 10 % 10 = digitVal d1 := by omega
        have e8 : (10 * digitVal d1 + digitVal d2) % 10 = digitVal d2 := by omega
        rw [e1, e2, e3, e4, e5, e6, e7, e8, digitChar_digitVal hy1, digitChar_digitVal hy2,
          digitChar_digitVal hy3, digitChar_digitVal hy4, digitChar_digitVal hm1,
          digitChar_digitVal hm2, digitChar_digitVal hd1, digitChar_digitVal hd2]

theorem parseDateChars_complete {dt : SnapcraftDate} (h : validDate dt) :
    parseDateChars (renderDateChars dt) = some dt := by
  obtain ⟨y, m, d⟩ := dt
  dsimp only [validDate] at h
  obtain ⟨hy, hm1, hm2, hd1, hd2⟩ := h
  simp only [renderDateChars, pad4, pad2, List.cons_append, List.nil_append]
  simp only [parseDateChars]
  have em : 10 * digitVal (digitChar (m / 10 % 10)) + digitVal (digitChar (m % 10)) = m := by
    rw [digitVal_digitChar (by omega), digitVal_digitChar (by omega)]
    omega
  have ed : 10 * digitVal (digitChar (d / 10 % 10)) + digitVal (digitChar (d % 10)) = d := by
    rw [digitVal_digitChar (by omega), digitVal_digitChar (by omega)]
    have : d ≤ 31 := by
      have : daysInMonth y m ≤ 31 := by
        unfold daysInMonth
        split
        · split <;> omega
        · split <;> omega
      omega
    omega
  have ey : 1000 * digitVal (digitChar (y / 1000 % 10)) +
      100 * digitVal (digitChar (y / 100 % 10)) + 10 * digitVal (digitChar (y / 10 % 10)) +
      digitVal (digitChar (y % 10)) = y := by
    rw [digitVal_digitChar (by omega), digitVal_digitChar (by omega),
      digitVal_digitChar (by omega), digitVal_digitChar (by omega)]
    omega
  rw [if_pos]
  · rw [ey, em, ed, if_pos ⟨hm1, hm2, hd1, hd2⟩]
  · exact ⟨isDigitChar_digitChar (by omega), isDigitChar_digitChar (by omega),
      isDigitChar_digitChar (by omega), isDigitChar_digitChar (by omega), trivial,
      isDigitChar_digitChar (by omega), isDigitChar_digitChar (by omega), trivial,
      isDigitChar_digitChar (by omega), isDigitChar_digitChar (by omega)⟩

theorem parseDateChars_length_ne {cs : List Char} (h : cs.length ≠ 10) :
    parseDateChars cs = none := by
  rw [parseDateChars.eq_def]
  split
  case h_1 => simp at h
  case h_2 => rfl

theorem renderDateChars_length (d : SnapcraftDate) : (renderDateChars d).length = 10 := by
  simp [renderDateChars, pad4, pad2]

/-! ## Trimming of quoted strings -/

theorem trimQuotes_quoted {a b : Char} (mid : List Char)
    (ha : (a == '"') = false) (hb : (b == '"') = false) :
    trimQuotes (('"' :: a :: (mid ++ [b])) ++ ['"']) = a :: (mid ++ [b]) := by
  unfold trimQuotes
  simp [ha, hb, List.dropWhile_cons]

theorem trimQuotes_marshal (d : SnapcraftDate) :
    trimQuotes (marshalSnapcraftDate d) = renderDateChars d ++ timeSuffix := by
  have ha : (digitChar (d.year / 1000 % 10) == '"') = false := digitChar_ne_quote (by omega)
  have hb : (('Z' : Char) == '"') = false := by decide
  have e : marshalSnapcraftDate d =
      ('"' :: digitChar (d.year / 1000 % 10) ::
        (([digitChar (d.year / 100 % 10), digitChar (d.year / 10 % 10),
           digitChar (d.year % 10), '-', digitChar (d.month / 10 % 10),
           digitChar (d.month % 10), '-', digitChar (d.day / 10 % 10),
           digitChar (d.day % 10), 'T', '0', '0', ':', '0', '0', ':', '0', '0'] ++ ['Z']))) ++
        ['"'] := by
    simp [marshalSnapcraftDate, renderDateChars, pad4, pad2, timeSuffix]
  rw [e, trimQuotes_quoted _ ha hb]
  simp [renderDateChars, pad4, pad2, timeSuffix]

theorem trimQuotes_quoted_render (d : SnapcraftDate) :
    trimQuotes (('"' :: renderDateChars d) ++ ['"']) = renderDateChars d := by
  have ha : (digitChar (d.year / 1000 % 10) == '"') = false := digitChar_ne_quote (by omega)
  have hb : (digitChar (d.day % 10) == '"') = false := digitChar_ne_quote (by omega)
  have e : ('"' :: renderDateChars d) ++ ['"'] =
      ('"' :: digitChar (d.year / 1000 % 10) ::
        (([digitChar (d.year / 100 % 10), digitChar (d.year / 10 % 10),
           digitChar (d.year % 10), '-', digitChar (d.month / 10 % 10),
           digitChar (d.month % 10), '-', digitChar (d.day / 10 % 10)] ++
          [digitChar (d.day % 10)]))) ++ ['"'] := by
    simp [renderDateChars, pad4, pad2]
  rw [e, trimQuotes_quoted _ ha hb]
  simp [renderDateChars, pad4, pad2]

theorem unmarshal_marshal_eq_none (d : SnapcraftDate) :
    unmarshalSnapcraftDate (marshalSnapcraftDate d) = none := by
  unfold unmarshalSnapcraftDate
  rw [trimQuotes_marshal]
  apply parseDateChars_length_ne
  simp [renderDateChars_length, timeSuffix]

/-! ## Correctness of the collect loops on well-formed responses -/

theorem bucketLoop_eq {m : SnapcraftMetric} {desc : PromDesc}
    (hdesc : snapcraftToPrometheus m.metricName = some desc)
    (item : SnapcraftMetricsItem) :
    ∀ (bs : List SnapcraftDate) (i : Nat), i + bs.length ≤ item.values.length →
      bucketLoop m item i bs =
        some ((bs.zip (item.values.drop i)).map fun p =>
          { desc := desc, labelValues := [m.snapID, item.name], value := p.2,
            timestamp := p.1 })
  | [], i, _ => by simp [bucketLoop]
  | date :: rest, i, h => by
    have hlen : i + (date :: rest).length ≤ item.values.length := h
    have hi : i < item.values.length := by
      simp only [List.length_cons] at hlen
      omega
    have hrec := bucketLoop_eq hdesc item rest (i + 1) (by
      simp only [List.length_cons] at hlen
      omega)
    have hdrop : item.values.drop i = item.values[i] :: item.values.drop (i + 1) :=
      List.drop_eq_getElem_cons hi
    rw [bucketLoop, hdesc, List.getElem?_eq_getElem hi, hrec]
    simp only [Option.bind_eq_bind, Option.some_bind]
    rw [hdrop]
    rfl

theorem seriesLoop_eq {m : SnapcraftMetric} {desc : PromDesc}
    (hdesc : snapcraftToPrometheus m.metricName = some desc) :
    ∀ (items : List SnapcraftMetricsItem),
      (∀ item ∈ items, item.values.length = m.buckets.length) →
      seriesLoop m items =
        some (items.flatMap fun item =>
          (m.buckets.zip item.values).map fun p =>
            { desc := desc, labelValues := [m.snapID, item.name], value := p.2,
              timestamp := p.1 })
  | [], _ => by simp [seriesLoop]
  | item :: rest, h => by
    have hitem : item.values.length = m.buckets.length := h item (by simp)
    have hhead := bucketLoop_eq hdesc item m.buckets 0 (by omega)
    have hrec := seriesLoop_eq hdesc rest fun it hit => h it (by simp [hit])
    rw [seriesLoop, hhead, hrec]
    simp [Option.bind]

/-- On a response whose series all satisfy `len(values) == len(buckets)` and
whose metric name resolves in the descriptor switch, the collect loops emit
exactly the specification-side sample list. -/
theorem collectMetric_eq_spec {m : SnapcraftMetric} {desc : PromDesc}
    (hdesc : snapcraftToPrometheus m.metricName = some desc)
    (hlen : ∀ item ∈ m.series, item.values.length = m.buckets.length) :
    collectMetricSamples m = some (specSamples desc m) :=
  seriesLoop_eq hdesc m.series hlen

theorem specSamples_timestamps_aux (desc : PromDesc) {m : SnapcraftMetric} :
    ∀ items : List SnapcraftMetricsItem,
      (∀ item ∈ items, item.values.length = m.buckets.length) →
      (items.flatMap fun item =>
        (m.buckets.zip item.values).map fun p =>
          ({ desc := desc, labelValues := [m.snapID, item.name], value := p.2,
             timestamp := p.1 } : Sample)).map Sample.timestamp =
        items.flatMap fun _ => m.buckets
  | [], _ => by simp
  | item :: rest, h => by
    have hitem : item.values.length = m.buckets.length := h item (by simp)
    have htail := specSamples_timestamps_aux desc (m := m) rest
      fun it hit => h it (by simp [hit])
    simp only [List.flatMap_cons, List.map_append, htail, List.map_map]
    congr 1
    have hcomp : (Sample.timestamp ∘ fun p : SnapcraftDate × Int =>
        ({ desc := desc, labelValues := [m.snapID, item.name], value := p.2,
           timestamp := p.1 } : Sample)) = Prod.fst := rfl
    rw [hcomp, List.map_fst_zip]
    omega

theorem specSamples_timestamps {desc : PromDesc} {m : SnapcraftMetric}
    (hlen : ∀ item ∈ m.series, item.values.length = m.buckets.length) :
    (specSamples desc m).map Sample.timestamp = m.series.flatMap fun _ => m.buckets :=
  specSamples_timestamps_aux desc m.series hlen

theorem snapcraftToPrometheus_eq_none {s : String} (h : s ∉ AllSnapcraftMetricNames) :
    snapcraftToPrometheus s = none := by
  simp only [AllSnapcraftMetricNames, List.mem_cons, List.not_mem_nil, or_false,
    not_or] at h
  obtain ⟨h1, h2, h3, h4, h5, h6, h7, h8, h9, h10⟩ := h
  simp [snapcraftToPrometheus, h1, h2, h3, h4, h5, h6, h7, h8, h9, h10]

/-! ## The claims -/

/-- C1: on a well-formed response (each series has exactly one value per
bucket) whose metric name resolves in the descriptor switch, `Collect` emits
exactly one sample per (seriesItem, bucketIndex) pair, with numeric value
`seriesItem.values[bucketIndex]`, timestamp `buckets[bucketIndex]`, and label
values `[entity, seriesItem.name]` for the descriptor label names
`[snap_id, dimensionLabel]`. -/
theorem C1_collect_cross_product (m : SnapcraftMetric) (desc : PromDesc)
    (hdesc : snapcraftToPrometheus m.metricName = some desc)
    (hlen : ∀ item ∈ m.series, item.values.length = m.buckets.length) :
    collectMetricSamples m = some (specSamples desc m) :=
  collectMetric_eq_spec hdesc hlen

/-- Witness for C1 at the end-to-end example of spec §8: entity `foo`, metric
`installed_base_by_channel` with buckets 2024-01-01/2024-01-02 and series
`stable = [10, 12]` yields exactly the two expected samples. -/
theorem C1_witness :
    collectMetricSamples exFoo =
      some [{ desc := installBaseByChannelDaily, labelValues := ["foo", "stable"],
              value := 10, timestamp := ⟨2024, 1, 1⟩ },
            { desc := installBaseByChannelDaily, labelValues := ["foo", "stable"],
              value := 12, timestamp := ⟨2024, 1, 2⟩ }] := by
  rw [C1_collect_cross_product exFoo installBaseByChannelDaily rfl (by decide)]
  rfl

/-- C2: evaluation at the failing input.  A series with fewer values than
buckets makes the Go slice indexing `item.Values[i]` panic, aborting the whole
scrape: no samples are served at all — not even for the well-formed series
`a` of the same response — and no ConsistencyError is logged.  A series with
more values than buckets emits one sample per bucket instead of zero.  The
drop-the-series-and-log behaviour the claim describes does not exist in the
code. -/
theorem C2_mismatch_behaviour :
    collectMetricSamples exMismatch = none ∧
    collectMetricSamples exMismatchOnlyA =
      some [{ desc := installBaseByChannelDaily, labelValues := ["foo", "a"],
              value := 10, timestamp := ⟨2024, 1, 1⟩ },
            { desc := installBaseByChannelDaily, labelValues := ["foo", "a"],
              value := 12, timestamp := ⟨2024, 1, 2⟩ }] ∧
    collectMetricSamples exLonger =
      some [{ desc := installBaseByChannelDaily, labelValues := ["foo", "b"],
              value := 7, timestamp := ⟨2024, 1, 1⟩ },
            { desc := installBaseByChannelDaily, labelValues := ["foo", "b"],
              value := 8, timestamp := ⟨2024, 1, 2⟩ }] :=
  ⟨rfl, rfl, rfl⟩

/-- C3 fails on the code: the scrape performs one batched POST covering every
(entity, metric name) pair; a transport failure (here a 500 status) panics and
yields no samples for any pair, even though the very same scrape with a
working transport produces samples. Nothing is skipped or logged. -/
theorem C3_counterexample :
    Collect ["a", "b"] "secret" (fun _ => some ⟨500, "err"⟩)
      (fun _ => (⟨[exFoo]⟩, false)) = none ∧
    Collect ["a", "b"] "secret" (fun _ => some ⟨200, "ok"⟩)
      (fun _ => (⟨[exFoo]⟩, false)) =
      some [{ desc := installBaseByChannelDaily, labelValues := ["foo", "stable"],
              value := 10, timestamp := ⟨2024, 1, 1⟩ },
            { desc := installBaseByChannelDaily, labelValues := ["foo", "stable"],
              value := 12, timestamp := ⟨2024, 1, 2⟩ }] :=
  ⟨rfl, rfl⟩

/-- C3 amended: any transport-step failure — missing credential, request
error, or non-success status code — aborts the entire scrape via panic: no
samples are emitted for any (entity, metric name) pair, and the failed fetch
is not skipped-and-logged. -/
theorem C3_transport_failure_aborts (snapIDs : List String) (macaroon : String)
    (transport : List SnapcraftMetricFilter → Option HttpResult)
    (unmarshal : String → SnapcraftMetrics × Bool) :
    (macaroon = "" → Collect snapIDs macaroon transport unmarshal = none) ∧
    (transport (buildFilters snapIDs AllSnapcraftMetricNames) = none →
      Collect snapIDs macaroon transport unmarshal = none) ∧
    (∀ res, transport (buildFilters snapIDs AllSnapcraftMetricNames) = some res →
      res.status ≠ 200 → Collect snapIDs macaroon transport unmarshal = none) := by
  refine ⟨?_, ?_, ?_⟩
  · intro h
    simp [Collect, getSnapcraftMetrics, h]
  · intro h
    by_cases hm : macaroon = ""
    · simp [Collect, getSnapcraftMetrics, hm]
    · simp [Collect, getSnapcraftMetrics, hm, h]
  · intro res hres hst
    by_cases hm : macaroon = ""
    · simp [Collect, getSnapcraftMetrics, hm]
    · simp [Collect, getSnapcraftMetrics, hm, hres, hst]

theorem C3_witness :
    Collect ["a"] "" (fun _ => none) (fun _ => (⟨[]⟩, false)) = none :=
  (C3_transport_failure_aborts ["a"] "" (fun _ => none) (fun _ => (⟨[]⟩, false))).1 rfl

/-- C4 fails on the code: marshalling the date 2024-01-01 produces the quoted
RFC 3339 bytes `"2024-01-01T00:00:00Z"`, which `UnmarshalJSON` rejects, so
serializing then re-parsing does not return the original date. -/
theorem C4_counterexample :
    unmarshalSnapcraftDate (marshalSnapcraftDate ⟨2024, 1, 1⟩) ≠
      some (⟨2024, 1, 1⟩ : SnapcraftDate) := by
  rw [unmarshal_marshal_eq_none]
  simp

/-- C4 amended: serialize-then-reparse always fails — `MarshalJSON` emits a
quoted RFC 3339 timestamp while `UnmarshalJSON` only accepts the bare
YYYY-MM-DD form — whereas reparsing the quoted YYYY-MM-DD rendering of the
same date succeeds and yields the original calendar date, so the round-trip
failure is a format mismatch, not timezone drift. -/
theorem C4_roundtrip_fails (d : SnapcraftDate) (h : validDate d) :
    unmarshalSnapcraftDate (marshalSnapcraftDate d) = none ∧
    unmarshalSnapcraftDate (('"' :: renderDateChars d) ++ ['"']) = some d := by
  refine ⟨unmarshal_marshal_eq_none d, ?_⟩
  unfold unmarshalSnapcraftDate
  rw [trimQuotes_quoted_render, parseDateChars_complete h]

theorem C4_witness :
    validDate ⟨2023, 12, 31⟩ ∧
    unmarshalSnapcraftDate (marshalSnapcraftDate ⟨2023, 12, 31⟩) = none ∧
    unmarshalSnapcraftDate (('"' :: renderDateChars ⟨2023, 12, 31⟩) ++ ['"']) =
      some ⟨2023, 12, 31⟩ :=
  ⟨by decide, (C4_roundtrip_fails ⟨2023, 12, 31⟩ (by decide)).1,
   (C4_roundtrip_fails ⟨2023, 12, 31⟩ (by decide)).2⟩

/-- C5: the descriptor switch resolves each of the ten metric names to a
descriptor whose variable labels are the entity label `snap_id` followed by
exactly the documented dimension label, and every string outside the ten
constants reaches the `panic` default (`none`, the UnknownMetric error). -/
theorem C5_registry_lookup :
    (∀ s, s ∉ AllSnapcraftMetricNames → snapcraftToPrometheus s = none) ∧
    (snapcraftToPrometheus "daily_device_change" = some deviceChangeDaily ∧
      deviceChangeDaily.variableLabels = ["snap_id", "change"]) ∧
    (snapcraftToPrometheus "weekly_device_change" = some deviceChangeWeekly ∧
      deviceChangeWeekly.variableLabels = ["snap_id", "change"]) ∧
    (snapcraftToPrometheus "installed_base_by_channel" = some installBaseByChannelDaily ∧
      installBaseByChannelDaily.variableLabels = ["snap_id", "channel"]) ∧
    (snapcraftToPrometheus "installed_base_by_country" = some installBaseByCountryDaily ∧
      installBaseByCountryDaily.variableLabels = ["snap_id", "country"]) ∧
    (snapcraftToPrometheus "installed_base_by_operating_system" = some installBaseBySystemDaily ∧
      installBaseBySystemDaily.variableLabels = ["snap_id", "system"]) ∧
    (snapcraftToPrometheus "installed_base_by_version" = some installBaseByVersionDaily ∧
      installBaseByVersionDaily.variableLabels = ["snap_id", "version"]) ∧
    (snapcraftToPrometheus "weekly_installed_base_by_channel" = some installBaseByChannelWeekly ∧
      installBaseByChannelWeekly.variableLabels = ["snap_id", "channel"]) ∧
    (snapcraftToPrometheus "weekly_installed_base_by_country" = some installBaseByCountryWeekly ∧
      installBaseByCountryWeekly.variableLabels = ["snap_id", "country"]) ∧
    (snapcraftToPrometheus "weekly_installed_base_by_operating_system" = some installBaseBySystemWeekly ∧
      installBaseBySystemWeekly.variableLabels = ["snap_id", "system"]) ∧
    (snapcraftToPrometheus "weekly_installed_base_by_version" = some installBaseByVersionWeekly ∧
      installBaseByVersionWeekly.variableLabels = ["snap_id", "version"]) :=
  ⟨fun _ h => snapcraftToPrometheus_eq_none h, ⟨rfl, rfl⟩, ⟨rfl, rfl⟩, ⟨rfl, rfl⟩,
   ⟨rfl, rfl⟩, ⟨rfl, rfl⟩, ⟨rfl, rfl⟩, ⟨rfl, rfl⟩, ⟨rfl, rfl⟩, ⟨rfl, rfl⟩, ⟨rfl, rfl⟩⟩

theorem C5_witness : snapcraftToPrometheus "bogus" = none :=
  C5_registry_lookup.1 "bogus" (by decide)

/-- C6 fails on the code: there is no staleness filter and no latest-only
mode; over the buckets [D-2, D-1, D] (D = 2024-01-03) the collector emits a
sample for every bucket, not only the sample(s) for bucket D. -/
theorem C6_counterexample :
    ((collectMetricSamples exThreeBuckets).map fun l => l.map Sample.timestamp) =
      some [⟨2024, 1, 1⟩, ⟨2024, 1, 2⟩, ⟨2024, 1, 3⟩] ∧
    ((collectMetricSamples exThreeBuckets).map fun l => l.map Sample.timestamp) ≠
      some [⟨2024, 1, 3⟩] :=
  ⟨rfl, by decide⟩

/-- C6 amended: collect() has a single, unconditional emit-all behaviour: on
every well-formed response the emitted timestamps are exactly the bucket list
repeated once per series, never filtered down to a reference date. -/
theorem C6_no_staleness_filter (m : SnapcraftMetric) (desc : PromDesc)
    (hdesc : snapcraftToPrometheus m.metricName = some desc)
    (hlen : ∀ item ∈ m.series, item.values.length = m.buckets.length) :
    ((collectMetricSamples m).map fun l => l.map Sample.timestamp) =
      some (m.series.flatMap fun _ => m.buckets) := by
  rw [collectMetric_eq_spec hdesc hlen]
  simp [specSamples_timestamps hlen]

theorem C6_witness :
    ((collectMetricSamples exThreeBuckets).map fun l => l.map Sample.timestamp) =
      some (exThreeBuckets.series.flatMap fun _ => exThreeBuckets.buckets) :=
  C6_no_staleness_filter exThreeBuckets installBaseByChannelDaily rfl (by decide)

/-- C7 fails on the code for the credential half: `main` only checks
`SNAP_IDS`; with `SNAP_IDS` set and `SNAP_STORE_MACAROON` unset the process
starts serving, and the missing credential instead panics later, during the
scrape's fetch step. -/
theorem C7_counterexample :
    mainStartsServing "foo" "" = true ∧
    Collect ["foo"] "" (fun _ => some ⟨200, ""⟩) (fun _ => (⟨[]⟩, false)) = none :=
  ⟨rfl, rfl⟩

/-- C7 amended: an absent entity list is fatal at startup (`main` returns
without serving), but an absent credential is not checked at startup: serving
starts whatever the credential value is, and every scrape performed with the
credential unset aborts in the fetch step. -/
theorem C7_startup_checks :
    (∀ snapIDString macaroon : String,
      mainStartsServing snapIDString macaroon = true ↔ snapIDString ≠ "") ∧
    (∀ (snapIDs : List String) (transport : List SnapcraftMetricFilter → Option HttpResult)
      (unmarshal : String → SnapcraftMetrics × Bool),
      Collect snapIDs "" transport unmarshal = none) := by
  constructor
  · intro s mac
    simp [mainStartsServing]
  · intro ids tr um
    simp [Collect, getSnapcraftMetrics]

theorem C7_witness :
    mainStartsServing "foo" "" = true ∧
    Collect ["foo"] "" (fun _ => none) (fun _ => (⟨[]⟩, false)) = none :=
  ⟨(C7_startup_checks.1 "foo" "").mpr (by decide),
   C7_startup_checks.2 ["foo"] (fun _ => none) (fun _ => (⟨[]⟩, false))⟩

/-- C8 fails on the code: the descriptor lookup during collect() is keyed by
the `metric_name` the response carries, not by the fixed request set, so a
response carrying an unrecognized name reaches the panic default mid-scrape
and aborts the scrape. -/
theorem C8_counterexample :
    snapcraftToPrometheus exBogus.metricName = none ∧
    collectMetricSamples exBogus = none :=
  ⟨rfl, rfl⟩

/-- C8 amended: the UnknownMetric branch is reachable mid-scrape: whenever a
decoded response carries a metric_name outside the ten constants and has at
least one series and one bucket, the lookup hits the panic default and the
scrape aborts. -/
theorem C8_unknown_metric_mid_scrape (m : SnapcraftMetric)
    (hname : m.metricName ∉ AllSnapcraftMetricNames)
    (hseries : m.series ≠ []) (hbuckets : m.buckets ≠ []) :
    collectMetricSamples m = none := by
  have hlook := snapcraftToPrometheus_eq_none hname
  obtain ⟨item, rest, hs⟩ : ∃ it r, m.series = it :: r := by
    cases hse : m.series with
    | nil => exact absurd hse hseries
    | cons a b => exact ⟨a, b, rfl⟩
  obtain ⟨b0, bs, hb⟩ : ∃ x y, m.buckets = x :: y := by
    cases hbe : m.buckets with
    | nil => exact absurd hbe hbuckets
    | cons a b => exact ⟨a, b, rfl⟩
  unfold collectMetricSamples
  rw [hs, seriesLoop, hb, bucketLoop, hlook]
  rfl

theorem C8_witness :
    exBogus.metricName ∉ AllSnapcraftMetricNames ∧ exBogus.series ≠ [] ∧
    exBogus.buckets ≠ [] ∧ collectMetricSamples exBogus = none :=
  ⟨by decide, by decide, by decide,
   C8_unknown_metric_mid_scrape exBogus (by decide) (by decide) (by decide)⟩

/-- C9: `UnmarshalJSON` succeeds exactly when its input, after stripping the
JSON double quotes, is the canonical YYYY-MM-DD form of a valid calendar
date, in which case it yields exactly that date; on every other textual form
it fails with the parse error of `time.Parse`. -/
theorem C9_parse_iff (b : List Char) (dt : SnapcraftDate) :
    unmarshalSnapcraftDate b = some dt ↔
      validDate dt ∧ trimQuotes b = renderDateChars dt := by
  constructor
  · intro h
    have hs := parseDateChars_sound h
    exact ⟨hs.1, hs.2.symm⟩
  · rintro ⟨hv, he⟩
    unfold unmarshalSnapcraftDate
    rw [he]
    exact parseDateChars_complete hv

theorem C9_witness :
    unmarshalSnapcraftDate exDateChars = some ⟨2024, 1, 2⟩ :=
  (C9_parse_iff exDateChars ⟨2024, 1, 2⟩).mpr ⟨by decide, by decide⟩

/-- C10: a response body that survives the transport step (status 200) but
fails to decode yields the zero-value struct — the error result of
`json.Unmarshal` is discarded without logging — so the scrape silently serves
zero samples instead of surfacing a parse failure. -/
theorem C10_decode_error_discarded (snapIDs : List String) (macaroon : String)
    (transport : List SnapcraftMetricFilter → Option HttpResult)
    (unmarshal : String → SnapcraftMetrics × Bool) (res : HttpResult)
    (hmac : macaroon ≠ "")
    (htr : transport (buildFilters snapIDs AllSnapcraftMetricNames) = some res)
    (hst : res.status = 200)
    (hdec : unmarshal res.body = (⟨[]⟩, true)) :
    getSnapcraftMetrics snapIDs macaroon transport unmarshal = some ⟨[]⟩ ∧
    Collect snapIDs macaroon transport unmarshal = some [] := by
  have hget : getSnapcraftMetrics snapIDs macaroon transport unmarshal = some ⟨[]⟩ := by
    simp [getSnapcraftMetrics, hmac, htr, hst, hdec]
  refine ⟨hget, ?_⟩
  simp [Collect, hget, metricsLoop]

theorem C10_witness :
    getSnapcraftMetrics ["foo"] "tok" (fun _ => some ⟨200, "notjson"⟩)
      (fun _ => (⟨[]⟩, true)) = some ⟨[]⟩ ∧
    Collect ["foo"] "tok" (fun _ => some ⟨200, "notjson"⟩)
      (fun _ => (⟨[]⟩, true)) = some [] :=
  C10_decode_error_discarded ["foo"] "tok" (fun _ => some ⟨200, "notjson"⟩)
    (fun _ => (⟨[]⟩, true)) ⟨200, "notjson"⟩ (by decide) rfl rfl rfl

end SnapcraftExporter
